import Mathlib

/-!
Verification development for the caia-agent-core repository.

Shallow embedding of the n8n service-lifecycle controller
(src/n8n_controller.py), the n8n REST management client
(src/caia_n8n_client.py) and the HTTP facade handlers (src/main.py).

External I/O (Railway GraphQL POSTs, webhook POSTs, health GETs) is
modelled by an explicit oracle supplying the outcome of each remote call,
and every function additionally returns the ordered list of remote calls
it issued, so that claims counting remote mutations are statable.
Python exceptions are modelled as the `Except.error` branch; a value
returned normally is `Except.ok`.
-/

namespace Caia

/-! ## JSON values

JSON documents (request bodies, response envelopes, workflow specs) are
modelled by `JVal`.  JSON numbers are represented exactly as rationals. -/

inductive JVal where
  | null
  | bool (b : Bool)
  | num (q : Rat)
  | str (s : String)
  | arr (xs : List JVal)
  | obj (fields : List (String × JVal))
deriving Repr

/-- Field access on a JSON object (Python `d.get(k)`): `none` when the
value is not an object or the key is absent. -/
def JVal.lookup : JVal → String → Option JVal
  | .obj fs, k => fs.lookup k
  | _, _ => none

/-- Python truthiness of a JSON value (`if workflow_id:` etc.). -/
def jTruthy : JVal → Bool
  | .null => false
  | .bool b => b
  | .num q => !(q == 0)
  | .str s => !(s == "")
  | .arr xs => !xs.isEmpty
  | .obj fs => !fs.isEmpty

/-- Python `str()` of a JSON value, as used when a value is interpolated
into an f-string URL. -/
def pyStr : JVal → String
  | .str s => s
  | .num q => toString q
  | .bool b => if b then "True" else "False"
  | .null => "None"
  | .arr _ => "[...]"
  | .obj _ => "{...}"

/-- Python truthiness of an `Optional[str]` (env vars: `None` and `""`
are both falsy). -/
def truthyOpt : Option String → Bool
  | none => false
  | some s => !(s == "")

/-! ## n8n_controller.py: data model -/

/-- The module-level `_service_state` dict of src/n8n_controller.py:
`{"is_running": False, "last_started": None, "last_stopped": None}`. -/
structure ServiceState where
  is_running : Bool
  last_started : Option Nat
  last_stopped : Option Nat
deriving Repr, DecidableEq

/-- Initial value of `_service_state`. -/
def serviceStateInit : ServiceState :=
  { is_running := false, last_started := none, last_stopped := none }

/-- Environment-derived configuration of n8n_controller.py
(`RAILWAY_TOKEN`, `SERVICE_ID`, `N8N_STARTUP_WAIT`; `os.getenv` yields
`None` when unset). -/
structure Config where
  railway_token : Option String
  service_id : Option String
  n8n_startup_wait : Nat
deriving Repr

/-- The two Railway GraphQL mutations (plus the connectivity probe) that
the controller can POST; the query string construction
(`mutation { serviceStart(id: "...") }`) is abstracted to the mutation
name and the interpolated service id. -/
inductive RailwayMutation where
  | serviceStart (id : String)
  | serviceStop (id : String)
  | meQuery
deriving Repr, DecidableEq

/-- One remote call issued by the controller, in program order. -/
inductive Event where
  | railwayPost (m : RailwayMutation)
  | sleep (seconds : Nat)
  | healthGet
  | webhookPost (workflow_id : String) (payload : JVal)
deriving Repr

/-- Outcome of one webhook POST (`requests.post` in `use_n8n_workflow`):
either a response with a status code and the result of parsing its body
as JSON (`none` = `response.json()` raises), or a raised
`RequestException`. -/
inductive WebhookOutcome where
  | http (status : Nat) (parsedBody : Option JVal)
  | exn (msg : String)
deriving Repr

/-- Oracle fixing the outcome of every remote call the controller can
make: the Railway GraphQL endpoint, the `/healthz` endpoint (`some s` =
response with status `s`, `none` = raised exception; indexed by poll
number), the webhook endpoint, and the current wall clock
(`time.time()`). -/
structure Oracle where
  railway : RailwayMutation → Except String JVal
  health : Nat → Option Nat
  webhook : String → JVal → WebhookOutcome
  now : Nat

/-! ## n8n_controller.py: operations -/

/-- Embeds `railway_graphql` (src/n8n_controller.py lines 30-75): config
guards raise `ValueError` before any network call; otherwise one POST is
issued and GraphQL-level errors / `RequestException`s surface as raised
exceptions (the oracle's `.error` branch). -/
def railway_graphql (cfg : Config) (orc : Oracle) (m : RailwayMutation) :
    Except String JVal × List Event :=
  if truthyOpt cfg.railway_token = false then
    (.error "RAILWAY_API_TOKEN is not configured", [])
  else if truthyOpt cfg.service_id = false then
    (.error "N8N_SERVICE_ID is not configured", [])
  else
    (orc.railway m, [Event.railwayPost m])

/-- Embeds the health-poll loop of `start_n8n` (src/n8n_controller.py
lines 114-127): `for i in range(max_retries)` with `remaining` the number
of iterations left (`5 - i`); a 200 response breaks, any other response
continues immediately, an exception sleeps 3 seconds unless it was the
last attempt.  Returns the events the loop issues. -/
def healthLoop (polls : Nat → Option Nat) : Nat → Nat → List Event
  | _, 0 => []
  | i, remaining + 1 =>
    match polls i with
    | some s =>
      if s == 200 then [Event.healthGet]
      else Event.healthGet :: healthLoop polls (i + 1) remaining
    | none =>
      if remaining == 0 then [Event.healthGet]
      else Event.healthGet :: Event.sleep 3 :: healthLoop polls (i + 1) remaining

/-- The service id as interpolated into the GraphQL mutation f-string
(`f'... serviceStart(id: "{SERVICE_ID}") ...'`): the Python `str()` of
the env value, `"None"` when unset. -/
def serviceIdStr (cfg : Config) : String :=
  pyStr (match cfg.service_id with
    | some s => JVal.str s
    | none => JVal.null)

/-- The `{"status": "already_running", ...}` result dict. -/
def alreadyRunningJson : JVal :=
  JVal.obj [("status", JVal.str "already_running"),
            ("message", JVal.str "Service was already running")]

/-- The `{"status": "started", "result": result}` result dict. -/
def startedJson (result : JVal) : JVal :=
  JVal.obj [("status", JVal.str "started"), ("result", result)]

/-- The `{"status": "already_stopped", ...}` result dict. -/
def alreadyStoppedJson : JVal :=
  JVal.obj [("status", JVal.str "already_stopped"),
            ("message", JVal.str "Service was already stopped")]

/-- The `{"status": "stopped", "result": result}` result dict. -/
def stoppedJson (result : JVal) : JVal :=
  JVal.obj [("status", JVal.str "stopped"), ("result", result)]

/-- Embeds `start_n8n` (src/n8n_controller.py lines 78-134).  If the
cached state says running, return `already_running` with no remote call.
Otherwise POST the `serviceStart` mutation; on failure reset
`is_running` to `False` and re-raise; on success set the running flag
and `last_started`, sleep the configured warm-up, run up to 5 health
polls (break on the first 200), and return `started` regardless of the
polls' outcomes. -/
def start_n8n (cfg : Config) (orc : Oracle) (st : ServiceState) :
    Except String JVal × ServiceState × List Event :=
  if st.is_running then
    (.ok alreadyRunningJson, st, [])
  else
    match railway_graphql cfg orc (.serviceStart (serviceIdStr cfg)) with
    | (.error e, evs) => (.error e, { st with is_running := false }, evs)
    | (.ok result, evs) =>
      let st1 : ServiceState :=
        { is_running := true, last_started := some orc.now, last_stopped := st.last_stopped }
      (.ok (startedJson result), st1,
        evs ++ [Event.sleep cfg.n8n_startup_wait] ++ healthLoop orc.health 0 5)

/-- Embeds `stop_n8n` (src/n8n_controller.py lines 137-172).  If the
cached state says not running, return `already_stopped` with no remote
call.  Otherwise POST the `serviceStop` mutation; on failure the state is
left unchanged and the exception re-raised; on success clear the running
flag and record `last_stopped`. -/
def stop_n8n (cfg : Config) (orc : Oracle) (st : ServiceState) :
    Except String JVal × ServiceState × List Event :=
  if st.is_running = false then
    (.ok alreadyStoppedJson, st, [])
  else
    match railway_graphql cfg orc (.serviceStop (serviceIdStr cfg)) with
    | (.error e, evs) => (.error e, st, evs)
    | (.ok result, evs) =>
      (.ok (stoppedJson result),
       { is_running := false, last_started := st.last_started, last_stopped := some orc.now },
       evs)

/-- The result of the webhook POST alone, viewed in isolation (status
>= 400 makes `raise_for_status` raise, an unparseable body makes
`response.json()` raise).  Stated separately from `use_n8n_workflow` so
that the theorems can say the invocation's own result survives the stop
attempt unchanged. -/
def webhookResult : WebhookOutcome → Except String JVal
  | .http status body =>
    if 400 ≤ status then .error ("HTTP error " ++ toString status)
    else
      match body with
      | some j => .ok j
      | none => .error "JSON decode error"
  | .exn m => .error m

/-- Output of one `use_n8n_workflow` call: its Python return value or
raised exception, the final `_service_state`, the ordered remote calls,
and how many times `stop_n8n` was invoked. -/
structure InvokeOutput where
  result : Except String JVal
  state : ServiceState
  events : List Event
  stopCalls : Nat
deriving Repr

/-- Embeds `use_n8n_workflow` (src/n8n_controller.py lines 175-237).
The try-block calls `start_n8n` and then POSTs the webhook
(`raise_for_status` raises on status >= 400, `response.json()` may
raise); either exception is caught and remembered in `error`.  The
finally-block attempts `stop_n8n` exactly once when `keep_alive` is
false, swallowing its failure.  Afterwards the remembered error, if any,
is re-raised, else the workflow response is returned. -/
def use_n8n_workflow (cfg : Config) (orc : Oracle) (workflow_id : String)
    (payload : JVal) (keep_alive : Bool) (st : ServiceState) : InvokeOutput :=
  let core : Except String JVal × ServiceState × List Event :=
    match start_n8n cfg orc st with
    | (.error e, st1, evs1) => (.error e, st1, evs1)
    | (.ok _, st1, evs1) =>
      match orc.webhook workflow_id payload with
      | .http status body =>
        if 400 ≤ status then
          (.error ("HTTP error " ++ toString status), st1,
            evs1 ++ [Event.webhookPost workflow_id payload])
        else
          match body with
          | some j => (.ok j, st1, evs1 ++ [Event.webhookPost workflow_id payload])
          | none => (.error "JSON decode error", st1,
              evs1 ++ [Event.webhookPost workflow_id payload])
      | .exn m => (.error m, st1, evs1 ++ [Event.webhookPost workflow_id payload])
  match core with
  | (res, st2, evs2) =>
    if keep_alive then
      { result := res, state := st2, events := evs2, stopCalls := 0 }
    else
      match stop_n8n cfg orc st2 with
      | (_stopRes, st3, evs3) =>
        { result := res, state := st3, events := evs2 ++ evs3, stopCalls := 1 }

/-- Embeds `N8NBatchOperation.__enter__` (src/n8n_controller.py lines
269-272): it just calls `start_n8n`. -/
def N8NBatchOperation.enter (cfg : Config) (orc : Oracle) (st : ServiceState) :
    Except String JVal × ServiceState × List Event :=
  start_n8n cfg orc st

/-- Embeds `N8NBatchOperation.__exit__` (src/n8n_controller.py lines
274-280): it calls `stop_n8n`, swallowing any exception, and returns
`False` (exceptions from the body are not suppressed). -/
def N8NBatchOperation.exit (cfg : Config) (orc : Oracle) (st : ServiceState) :
    ServiceState × List Event :=
  match stop_n8n cfg orc st with
  | (_res, st1, evs1) => (st1, evs1)

/-- Count of `serviceStart` POSTs in a trace. -/
def countStartPosts (evs : List Event) : Nat :=
  (evs.filter fun e => match e with
    | .railwayPost (.serviceStart _) => true
    | _ => false).length

/-- Count of `serviceStop` POSTs in a trace. -/
def countStopPosts (evs : List Event) : Nat :=
  (evs.filter fun e => match e with
    | .railwayPost (.serviceStop _) => true
    | _ => false).length

/-- Count of health GETs in a trace. -/
def countHealthGets (evs : List Event) : Nat :=
  (evs.filter fun e => match e with
    | .healthGet => true
    | _ => false).length

/-! ## caia_n8n_client.py: low-level REST client -/

/-- The `N8NClient` class (src/caia_n8n_client.py lines 19-29).  Its
`__init__` signature is `(self, base_url: str, api_key: str,
session=None)`: the class has no basic-auth fields at all. -/
structure N8NClient where
  base_url : String
  api_key : String
deriving Repr

/-- Embeds `N8NClient._headers` (src/caia_n8n_client.py lines 32-40):
always the API-key header plus a duplicate bearer-token header; no code
path produces a Basic authorization header. -/
def N8NClient._headers (self : N8NClient) : List (String × String) :=
  [("X-N8N-API-KEY", self.api_key),
   ("Authorization", "Bearer " ++ self.api_key),
   ("Content-Type", "application/json"),
   ("Accept", "application/json")]

/-- One HTTP response as seen by `_request`: status code, whether the
content type is `application/json`, the result of parsing the body bytes
as JSON (`none` = not parseable), and the raw body text. -/
structure HttpResponse where
  status : Nat
  contentTypeJson : Bool
  parsedBody : Option JVal
  textBody : String
deriving Repr

/-- Result of one `_request` call: a returned JSON value, a raised
`N8NError(status, body)`, or another raised exception (e.g. a JSON
decode failure on a 2xx `application/json` response). -/
inductive RequestOutcome where
  | ok (v : JVal)
  | n8nError (status : Nat) (body : JVal)
  | otherError (msg : String)
deriving Repr

/-- The body attached to a raised `N8NError` (src/caia_n8n_client.py
lines 60-63): `await r.json()` succeeds only for a parseable
`application/json` body, otherwise the raw text is used. -/
def errResponseBody (r : HttpResponse) : JVal :=
  if r.contentTypeJson then
    match r.parsedBody with
    | some j => j
    | none => JVal.str r.textBody
  else JVal.str r.textBody

/-- Embeds `N8NClient._request` (src/caia_n8n_client.py lines 46-64).
The remote server is modelled as a function from attempt number to
response so that any retry policy would be observable in the trace; the
source issues exactly one `session.request`, i.e. it only ever consults
`server 0`.  2xx responses return a parsed body (with the
`{"ok": True, "raw": text}` fallback for unparseable non-JSON bodies);
every other status raises `N8NError(status, body)`.  There is no retry
loop, no backoff, and no error envelope on the error path. -/
def N8NClient._request (self : N8NClient) (method path : String)
    (server : Nat → HttpResponse) : RequestOutcome × List (String × String) :=
  let r := server 0
  let evs := [(method, self.base_url ++ path)]
  if 200 ≤ r.status && r.status < 300 then
    if r.contentTypeJson then
      match r.parsedBody with
      | some j => (.ok j, evs)
      | none => (.otherError "JSON decode error", evs)
    else
      match r.parsedBody with
      | some j => (.ok j, evs)
      | none => (.ok (JVal.obj [("ok", JVal.bool true), ("raw", JVal.str r.textBody)]), evs)
  else
    (.n8nError r.status (errResponseBody r), evs)

/-- Embeds `N8NClient.get_credential_by_name` (src/caia_n8n_client.py
lines 74-79), given the decoded result of `list_credentials`: a linear
scan for `c.get("name") == name`, `None` when no match. -/
def get_credential_by_name (creds : List JVal) (name : String) : Option JVal :=
  creds.find? fun c =>
    match c.lookup "name" with
    | some (.str s) => s == name
    | _ => false

/-! ## caia_n8n_client.py: credential resolution and spec builders -/

/-- Embeds `CredentialResolver.resolve` (src/caia_n8n_client.py lines
140-150), given the remote credential list.  An empty name raises
`ValueError`; a name with no remote match raises
`RuntimeError("Credential ... not found in n8n")`.  There is no
missing-credentials accumulator: a miss is a raised exception, not a
recorded warning. -/
def CredentialResolver.resolve (creds : List JVal) (type_key cred_name : String) :
    Except String JVal :=
  if cred_name == "" then
    .error ("Missing credential name for " ++ type_key)
  else
    match get_credential_by_name creds cred_name with
    | none => .error ("Credential " ++ cred_name ++ " not found in n8n")
    | some cred =>
      .ok (JVal.obj [(type_key,
        JVal.obj [("id", (cred.lookup "id").getD JVal.null),
                  ("name", (cred.lookup "name").getD JVal.null)])])

/-- Embeds `_base_spec` (src/caia_n8n_client.py lines 156-163). -/
def _base_spec (name : String) : JVal :=
  JVal.obj [("name", JVal.str name),
            ("nodes", JVal.arr []),
            ("connections", JVal.obj []),
            ("active", JVal.bool false),
            ("settings", JVal.obj [("executionOrder", JVal.str "v1")])]

/-- Replace or add a field of a JSON object (Python `d[k] = v`). -/
def JVal.setField : JVal → String → JVal → JVal
  | .obj fs, k, v =>
    if (fs.lookup k).isSome then
      .obj (fs.map fun p => if p.1 == k then (k, v) else p)
    else .obj (fs ++ [(k, v)])
  | other, _, _ => other

/-- Embeds `build_wf_tg_to_gmail` (src/caia_n8n_client.py lines
274-341), given the remote credential list and the two credential
display names (read from `N8N_CRED_TELEGRAM` / `N8N_CRED_GMAIL` in the
source).  The Telegram credential is resolved first, then the Gmail one;
either miss raises and aborts the whole build.  Node display parameters
(positions, prompts, expressions) play no role in any claim and are
elided to empty parameter objects; the `credentials` blocks are kept. -/
def build_wf_tg_to_gmail (creds : List JVal) (telegram_name gmail_name : String)
    (tg_chat_whitelist : List String) (mail_to : String) : Except String JVal :=
  match CredentialResolver.resolve creds "telegramApi" telegram_name with
  | .error e => .error e
  | .ok telegram_cred =>
    match CredentialResolver.resolve creds "gmailOAuth2" gmail_name with
    | .error e => .error e
    | .ok gmail_cred =>
      let tg_trigger :=
        JVal.obj [("id", JVal.str "tg-trigger"),
                  ("name", JVal.str "Telegram Trigger"),
                  ("type", JVal.str "n8n-nodes-base.telegramTrigger"),
                  ("parameters", JVal.obj [("userIds", JVal.str (String.intercalate "," tg_chat_whitelist))]),
                  ("credentials", telegram_cred)]
      let gmail_send :=
        JVal.obj [("id", JVal.str "gmail-send"),
                  ("name", JVal.str "Forward to Gmail"),
                  ("type", JVal.str "n8n-nodes-base.gmail"),
                  ("parameters", JVal.obj [("operation", JVal.str "send"),
                                           ("toList", JVal.str mail_to)]),
                  ("credentials", gmail_cred)]
      let tg_ack :=
        JVal.obj [("id", JVal.str "tg-ack"),
                  ("name", JVal.str "Reply Ack"),
                  ("type", JVal.str "n8n-nodes-base.telegram"),
                  ("parameters", JVal.obj []),
                  ("credentials", telegram_cred)]
      let conns :=
        JVal.obj [("Telegram Trigger", JVal.arr [JVal.str "Forward to Gmail"]),
                  ("Forward to Gmail", JVal.arr [JVal.str "Reply Ack"])]
      .ok ((((_base_spec "caia-managed/tg-forward/prod").setField
              "nodes" (JVal.arr [tg_trigger, gmail_send, tg_ack])).setField
              "connections" conns))

/-! ## main.py: facade helpers -/

/-- Embeds `_assert_n8n_ready` (src/main.py lines 40-58) over the four
environment strings (unset env vars default to `""` via
`os.getenv(..., "")`): the URL must be set and at least one of the two
authentication methods present. -/
def _assert_n8n_ready (n8n_api_url n8n_api_key basic_user basic_password : String) : Bool :=
  if n8n_api_url == "" then false
  else
    let has_api_key := !(n8n_api_key == "")
    let has_basic := !(basic_user == "") && !(basic_password == "")
    has_api_key || has_basic

/-- What `_n8n_client` (src/main.py lines 60-71) produces. -/
inductive ClientInit where
  | notConfigured
  | typeError
deriving Repr, DecidableEq

/-- Embeds `_n8n_client` (src/main.py lines 60-71) under Python call
semantics.  When `_assert_n8n_ready` fails it returns `None`
(`notConfigured`).  Otherwise it evaluates
`N8NClient(base_url=..., api_key=..., basic_user=..., basic_password=...)`;
the keyword arguments `basic_user` and `basic_password` are always
present in that call, but `N8NClient.__init__` (src/caia_n8n_client.py
line 26) accepts only `(base_url, api_key, session)`, so the call raises
`TypeError` before any client exists — on every configured input. -/
def n8n_client_init (n8n_api_url n8n_api_key basic_user basic_password : String) :
    ClientInit :=
  if _assert_n8n_ready n8n_api_url n8n_api_key basic_user basic_password = false then
    .notConfigured
  else
    .typeError

/-- Embeds `_auth_or_anon` (src/main.py lines 73-81): the whole bearer
check is commented out, so the function returns `True` for every
`authorization` header value without reading `CAIA_AGENT_KEY`. -/
def _auth_or_anon (_authorization : Option String) : Bool := true

/-- Embeds `DecisionEngine.decide` (src/decision.py): a constant
dictionary independent of its arguments. -/
def decide_result : JVal :=
  JVal.obj [("intent", JVal.str "general"),
            ("priority", JVal.num 2),
            ("suggested_workflow", JVal.str "general-handler"),
            ("actions", JVal.arr [JVal.obj [("type", JVal.str "process"),
                                            ("intent", JVal.str "general")]]),
            ("confidence", JVal.num (0.8 : Rat))]

/-- Embeds `MemoryManager.recall` (src/memory.py): the last five stored
memories plus the query. -/
def memory_recall (memories : List JVal) (query : JVal) : JVal :=
  JVal.obj [("memories", JVal.arr (memories.drop (memories.length - 5))),
            ("query", query)]

/-! ## main.py: endpoint handlers

Each handler returns the pair (HTTP status, JSON body); FastAPI returns
status 200 for a plain dict, which every modelled path produces.  A
request body of `none` models `await request.json()` raising (invalid
JSON), which the outer `except` of each handler converts into an
`{"ok": False, "error": ...}` envelope. -/

/-- Embeds the `/report` handler (src/main.py lines 146-155) together
with `MemoryManager.store` (src/memory.py): on success the stored memory
gains a `stored_at` field and the response is
`{"status": "remembered"}` — with no `ok` field; a non-object body makes
`memory["stored_at"] = ...` raise `TypeError`, and any exception yields
the `{"ok": False, "error": ...}` envelope. -/
def report (body : Option JVal) (memories : List JVal) (now_iso : String) :
    (Nat × JVal) × List JVal :=
  match body with
  | some (JVal.obj fs) =>
    ((200, JVal.obj [("status", JVal.str "remembered")]),
     memories ++ [(JVal.obj fs).setField "stored_at" (JVal.str now_iso)])
  | some _ =>
    ((200, JVal.obj [("ok", JVal.bool false),
                     ("error", JVal.str "TypeError: item assignment")]), memories)
  | none =>
    ((200, JVal.obj [("ok", JVal.bool false),
                     ("error", JVal.str "invalid JSON body")]), memories)

/-- Embeds the `/orchestrate` handler (src/main.py lines 103-144).  When
the body carries a truthy `workflow_id` and the Railway controller is
configured, `use_n8n_workflow` runs; success returns an
`{"ok": True, "workflow_result": ..., "controlled_execution": True}`
envelope, failure falls through to the regular orchestration path, whose
response `{"decision": ..., "memory_context": ...}` carries no `ok`
field.  A body that fails to parse yields the
`{"ok": False, "error": ...}` envelope. -/
def orchestrate (cfg : Config) (orc : Oracle) (memories : List JVal)
    (body : Option JVal) (st : ServiceState) : (Nat × JVal) × ServiceState × List Event :=
  match body with
  | none =>
    ((200, JVal.obj [("ok", JVal.bool false), ("error", JVal.str "invalid JSON body")]), st, [])
  | some b =>
    let message := (b.lookup "message").getD (JVal.str "")
    let regular : JVal :=
      JVal.obj [("decision", decide_result),
                ("memory_context", memory_recall memories message)]
    let wid := (b.lookup "workflow_id").getD JVal.null
    if jTruthy wid && truthyOpt cfg.railway_token && truthyOpt cfg.service_id then
      let workflow_payload :=
        JVal.obj [("message", message),
                  ("trigger_type", (b.lookup "trigger_type").getD (JVal.str "unknown")),
                  ("metadata", (b.lookup "metadata").getD (JVal.obj []))]
      let out := use_n8n_workflow cfg orc (pyStr wid) workflow_payload false st
      match out.result with
      | .ok r =>
        ((200, JVal.obj [("ok", JVal.bool true),
                         ("workflow_result", r),
                         ("controlled_execution", JVal.bool true)]), out.state, out.events)
      | .error _ => ((200, regular), out.state, out.events)
    else
      ((200, regular), st, [])

/-- Embeds the `/webhook/{workflow_id}` handler `controlled_webhook`
(src/main.py lines 541-596).  The `authorization` header only flows into
`_auth_or_anon`, whose result is unused.  With the Railway controller
configured the call goes through `use_n8n_workflow`; otherwise the
fallback branch references `N8N_PROTOCOL` / `N8N_HOST`, names main.py
never imports, so it raises `NameError`, which the outer `except`
converts into an error envelope. -/
def controlled_webhook (cfg : Config) (orc : Oracle) (authorization : Option String)
    (workflow_id : String) (body : Option JVal) (st : ServiceState) :
    (Nat × JVal) × ServiceState × List Event :=
  let _authed := _auth_or_anon authorization
  match body with
  | none =>
    ((200, JVal.obj [("ok", JVal.bool false), ("error", JVal.str "invalid JSON body")]), st, [])
  | some b =>
    if truthyOpt cfg.railway_token && truthyOpt cfg.service_id then
      let out := use_n8n_workflow cfg orc workflow_id b false st
      match out.result with
      | .ok r =>
        ((200, JVal.obj [("ok", JVal.bool true),
                         ("result", r),
                         ("controlled", JVal.bool true),
                         ("message", JVal.str "Workflow executed with automatic n8n lifecycle management")]),
         out.state, out.events)
      | .error e =>
        ((200, JVal.obj [("ok", JVal.bool false),
                         ("error", JVal.str e),
                         ("controlled", JVal.bool true)]), out.state, out.events)
    else
      ((200, JVal.obj [("ok", JVal.bool false),
                       ("error", JVal.str "name N8N_PROTOCOL is not defined")]), st, [])

/-- The per-item loop body of `/batch/workflows` (src/main.py lines
628-647): each item runs `use_n8n_workflow(id, payload, keep_alive=True)`
with its own try/except, so one item's failure does not stop the later
ones.  Returns the per-item result dicts, the final state, the issued
events and the total number of `stop_n8n` calls made by the items. -/
def runBatchItems (cfg : Config) (orc : Oracle) :
    List (String × JVal) → ServiceState → List JVal × ServiceState × List Event × Nat
  | [], st => ([], st, [], 0)
  | (wid, payload) :: rest, st =>
    let out := use_n8n_workflow cfg orc wid payload true st
    let item : JVal :=
      match out.result with
      | .ok r => JVal.obj [("workflow_id", JVal.str wid),
                           ("ok", JVal.bool true),
                           ("result", r)]
      | .error e => JVal.obj [("workflow_id", JVal.str wid),
                              ("ok", JVal.bool false),
                              ("error", JVal.str e)]
    match runBatchItems cfg orc rest out.state with
    | (items, st2, evs2, stops2) =>
      (item :: items, st2, out.events ++ evs2, out.stopCalls + stops2)

/-- Output of the `/batch/workflows` handler. -/
structure BatchOutput where
  response : Nat × JVal
  state : ServiceState
  events : List Event
  stopCalls : Nat
deriving Repr

/-- Embeds the `/batch/workflows` handler `batch_workflows_execution`
(src/main.py lines 598-660) around `N8NBatchOperation`.  When the
controller is unconfigured it fails fast; when `__enter__` (= `start_n8n`)
raises, the `with` body never runs and `__exit__` is not called, the
outer `except` producing the error envelope; otherwise all items run with
`keep_alive=True` and `__exit__` attempts `stop_n8n` exactly once on
every exit path. -/
def batch_workflows_execution (cfg : Config) (orc : Oracle)
    (authorization : Option String) (workflows : List (String × JVal))
    (st : ServiceState) : BatchOutput :=
  let _authed := _auth_or_anon authorization
  if !(truthyOpt cfg.railway_token && truthyOpt cfg.service_id) then
    { response := (200, JVal.obj [("ok", JVal.bool false),
                                  ("error", JVal.str "Railway controller not configured"),
                                  ("hint", JVal.str "Set RAILWAY_API_TOKEN and N8N_SERVICE_ID")]),
      state := st, events := [], stopCalls := 0 }
  else
    match N8NBatchOperation.enter cfg orc st with
    | (.error e, st1, evs1) =>
      { response := (200, JVal.obj [("ok", JVal.bool false), ("error", JVal.str e)]),
        state := st1, events := evs1, stopCalls := 0 }
    | (.ok _, st1, evs1) =>
      match runBatchItems cfg orc workflows st1 with
      | (items, st2, evs2, stops2) =>
        match N8NBatchOperation.exit cfg orc st2 with
        | (st3, evs3) =>
          let success_count := (items.filter fun r =>
            match r.lookup "ok" with
            | some (.bool true) => true
            | _ => false).length
          { response := (200, JVal.obj
              [("ok", JVal.bool (decide (0 < success_count))),
               ("summary", JVal.str (toString success_count ++ "/" ++
                  toString items.length ++ " workflows executed")),
               ("results", JVal.arr items)]),
            state := st3, events := evs1 ++ evs2 ++ evs3,
            stopCalls := stops2 + 1 }

/-! ## Concrete fixtures used by witnesses and counterexamples -/

/-- A fully configured controller environment. -/
def cfg0 : Config :=
  { railway_token := some "railway-token", service_id := some "svc-n8n", n8n_startup_wait := 10 }

/-- An oracle where every remote call succeeds (health 200 on the first
poll, webhook returns a JSON body with status 200). -/
def orc0 : Oracle :=
  { railway := fun _ => .ok JVal.null,
    health := fun _ => some 200,
    webhook := fun _ _ => .http 200 (some (JVal.obj [("done", JVal.bool true)])),
    now := 1000 }

/-- Like `orc0` but every `serviceStop` mutation fails. -/
def orcStopFails : Oracle :=
  { railway := fun m =>
      match m with
      | .serviceStop _ => .error "Railway API error: stop rejected"
      | _ => .ok JVal.null,
    health := fun _ => some 200,
    webhook := fun _ _ => .http 200 (some (JVal.obj [("done", JVal.bool true)])),
    now := 1000 }

/-- A cached state that says the service is running. -/
def stRunning : ServiceState :=
  { is_running := true, last_started := some 5, last_stopped := none }

/-- A 503 response whose body is JSON, as a server that is persistently
unavailable would produce. -/
def resp503 : HttpResponse :=
  { status := 503, contentTypeJson := true,
    parsedBody := some (JVal.obj [("message", JVal.str "Service Unavailable")]),
    textBody := "Service Unavailable" }

/-- A concrete REST client instance. -/
def client0 : N8NClient :=
  { base_url := "https://n8n.example", api_key := "key0" }

/-- A remote credential list containing only the Telegram credential, so
the Gmail name has no match. -/
def credsOnlyTelegram : List JVal :=
  [JVal.obj [("id", JVal.str "cred-1"), ("name", JVal.str "Telegram account 2")]]

/-! ## Helper lemmas about traces -/

theorem countStartPosts_append (a b : List Event) :
    countStartPosts (a ++ b) = countStartPosts a + countStartPosts b := by
  simp [countStartPosts, List.filter_append]

theorem countStopPosts_append (a b : List Event) :
    countStopPosts (a ++ b) = countStopPosts a + countStopPosts b := by
  simp [countStopPosts, List.filter_append]

theorem countHealthGets_append (a b : List Event) :
    countHealthGets (a ++ b) = countHealthGets a + countHealthGets b := by
  simp [countHealthGets, List.filter_append]

theorem counts_nil :
    countStartPosts [] = 0 ∧ countStopPosts [] = 0 ∧ countHealthGets [] = 0 := by
  simp [countStartPosts, countStopPosts, countHealthGets]

theorem counts_healthGet_cons (l : List Event) :
    countStartPosts (Event.healthGet :: l) = countStartPosts l
    ∧ countStopPosts (Event.healthGet :: l) = countStopPosts l
    ∧ countHealthGets (Event.healthGet :: l) = countHealthGets l + 1 := by
  simp [countStartPosts, countStopPosts, countHealthGets, List.filter_cons]

theorem counts_sleep_cons (s : Nat) (l : List Event) :
    countStartPosts (Event.sleep s :: l) = countStartPosts l
    ∧ countStopPosts (Event.sleep s :: l) = countStopPosts l
    ∧ countHealthGets (Event.sleep s :: l) = countHealthGets l := by
  simp [countStartPosts, countStopPosts, countHealthGets, List.filter_cons]

theorem counts_webhook_cons (w : String) (p : JVal) (l : List Event) :
    countStartPosts (Event.webhookPost w p :: l) = countStartPosts l
    ∧ countStopPosts (Event.webhookPost w p :: l) = countStopPosts l
    ∧ countHealthGets (Event.webhookPost w p :: l) = countHealthGets l := by
  simp [countStartPosts, countStopPosts, countHealthGets, List.filter_cons]

theorem counts_startPost_cons (id : String) (l : List Event) :
    countStartPosts (Event.railwayPost (.serviceStart id) :: l) = countStartPosts l + 1
    ∧ countStopPosts (Event.railwayPost (.serviceStart id) :: l) = countStopPosts l
    ∧ countHealthGets (Event.railwayPost (.serviceStart id) :: l) = countHealthGets l := by
  simp [countStartPosts, countStopPosts, countHealthGets, List.filter_cons]

theorem counts_stopPost_cons (id : String) (l : List Event) :
    countStartPosts (Event.railwayPost (.serviceStop id) :: l) = countStartPosts l
    ∧ countStopPosts (Event.railwayPost (.serviceStop id) :: l) = countStopPosts l + 1
    ∧ countHealthGets (Event.railwayPost (.serviceStop id) :: l) = countHealthGets l := by
  simp [countStartPosts, countStopPosts, countHealthGets, List.filter_cons]

/-- One-step unfolding of `healthLoop` at a positive remaining count. -/
theorem healthLoop_succ (polls : Nat → Option Nat) (i r : Nat) :
    healthLoop polls i (r + 1) =
      match polls i with
      | some s =>
        if s == 200 then [Event.healthGet]
        else Event.healthGet :: healthLoop polls (i + 1) r
      | none =>
        if r == 0 then [Event.healthGet]
        else Event.healthGet :: Event.sleep 3 :: healthLoop polls (i + 1) r := rfl

/-- The health-poll loop issues no Railway mutations and at most
`remaining` health GETs. -/
theorem healthLoop_counts (polls : Nat → Option Nat) :
    ∀ (remaining i : Nat),
      countStartPosts (healthLoop polls i remaining) = 0
      ∧ countStopPosts (healthLoop polls i remaining) = 0
      ∧ countHealthGets (healthLoop polls i remaining) ≤ remaining
  | 0, i => by simp [healthLoop, countStartPosts, countStopPosts, countHealthGets]
  | r + 1, i => by
    rw [healthLoop_succ]
    cases hp : polls i with
    | none =>
      dsimp only
      by_cases hz : (r == 0) = true
      · simp [hz, countStartPosts, countStopPosts, countHealthGets]
      · rw [if_neg hz]
        obtain ⟨ih1, ih2, ih3⟩ := healthLoop_counts polls r (i + 1)
        refine ⟨?_, ?_, ?_⟩
        · rw [(counts_healthGet_cons _).1, (counts_sleep_cons _ _).1, ih1]
        · rw [(counts_healthGet_cons _).2.1, (counts_sleep_cons _ _).2.1, ih2]
        · rw [(counts_healthGet_cons _).2.2, (counts_sleep_cons _ _).2.2]
          omega
    | some s =>
      dsimp only
      by_cases hs : (s == 200) = true
      · simp [hs, countStartPosts, countStopPosts, countHealthGets]
      · rw [if_neg hs]
        obtain ⟨ih1, ih2, ih3⟩ := healthLoop_counts polls r (i + 1)
        refine ⟨?_, ?_, ?_⟩
        · rw [(counts_healthGet_cons _).1, ih1]
        · rw [(counts_healthGet_cons _).2.1, ih2]
        · rw [(counts_healthGet_cons _).2.2]
          omega

/-- A `use_n8n_workflow` call with `keep_alive=True` from a running cached
state: the inner `start_n8n` is a no-op, only the webhook POST happens,
the state is untouched and `stop_n8n` is never called. -/
theorem use_keepalive_running (cfg : Config) (orc : Oracle) (wid : String)
    (payload : JVal) (st : ServiceState) (h : st.is_running = true) :
    use_n8n_workflow cfg orc wid payload true st =
      { result := webhookResult (orc.webhook wid payload), state := st,
        events := [Event.webhookPost wid payload], stopCalls := 0 } := by
  simp only [use_n8n_workflow, start_n8n, h, if_true]
  cases hw : orc.webhook wid payload with
  | http status body =>
    simp only [webhookResult]
    by_cases h4 : 400 ≤ status
    · simp [h4]
    · cases body <;> simp [h4]
  | exn m => simp [webhookResult]

/-- Running the batch body with all items at `keep_alive=True` from a
running state: the state is preserved, the trace is exactly one webhook
POST per item, and no item ever calls `stop_n8n`. -/
theorem runBatchItems_spec (cfg : Config) (orc : Oracle) :
    ∀ (items : List (String × JVal)) (st : ServiceState), st.is_running = true →
      (runBatchItems cfg orc items st).2.1 = st
      ∧ (runBatchItems cfg orc items st).2.2.1 =
          items.map (fun it => Event.webhookPost it.1 it.2)
      ∧ (runBatchItems cfg orc items st).2.2.2 = 0
  | [], st, h => by simp [runBatchItems]
  | (wid, payload) :: rest, st, h => by
    obtain ⟨ih1, ih2, ih3⟩ := runBatchItems_spec cfg orc rest st h
    simp only [runBatchItems, use_keepalive_running cfg orc wid payload st h]
    refine ⟨ih1, ?_, ?_⟩
    · simp [ih2]
    · simp [ih3]

/-- A `stop_n8n` call from a running state in a configured environment
issues exactly the `serviceStop` POST, whether the mutation succeeds or
fails. -/
theorem stop_running_events (cfg : Config) (orc : Oracle) (st : ServiceState)
    (ht : truthyOpt cfg.railway_token = true) (hs : truthyOpt cfg.service_id = true)
    (h : st.is_running = true) :
    (stop_n8n cfg orc st).2.2 = [Event.railwayPost (.serviceStop (serviceIdStr cfg))] := by
  simp only [stop_n8n, railway_graphql, h, ht, hs]
  cases orc.railway (.serviceStop (serviceIdStr cfg)) <;> simp

/-- The value `start_n8n` returns (or the exception it raises) depends
only on the cached state, the configuration, and the outcome of
`serviceStart` mutations — never on the health polls or on `serviceStop`
outcomes. -/
theorem start_n8n_result_congr (cfg : Config) (orc orc2 : Oracle) (st : ServiceState)
    (hrail : ∀ i, orc.railway (.serviceStart i) = orc2.railway (.serviceStart i)) :
    (start_n8n cfg orc st).1 = (start_n8n cfg orc2 st).1 := by
  simp only [start_n8n, railway_graphql]
  by_cases h : st.is_running = true
  · simp [h]
  · simp only [h, if_false]
    by_cases hT : truthyOpt cfg.railway_token = false
    · simp [hT]
    · by_cases hS : truthyOpt cfg.service_id = false
      · simp [hT, hS]
      · simp only [hT, hS, if_false]
        rw [hrail (serviceIdStr cfg)]
        cases orc2.railway (.serviceStart (serviceIdStr cfg)) <;> simp

/-! ## C1 -/

/-- C1: for every outcome of the workflow invocation inside
`use_n8n_workflow` — successful response, HTTP error, or raised
exception — if `keep_alive` is false then `stop_n8n` is attempted exactly
once after the invocation attempt, and if `keep_alive` is true it is
never called; the call's result is fully determined by the start outcome
and the webhook outcome (`webhookResult`), so a failing stop attempt
never replaces it, and an invocation error is re-raised as is: with a
second oracle that agrees on `serviceStart` and webhook outcomes but may
fail every `serviceStop`, the result is identical. -/
theorem c1_invoke_cleanup (cfg : Config) (orc orc2 : Oracle) (wf : String)
    (payload : JVal) (ka : Bool) (st : ServiceState)
    (hrail : ∀ i, orc.railway (.serviceStart i) = orc2.railway (.serviceStart i))
    (hweb : orc.webhook wf payload = orc2.webhook wf payload) :
    ((use_n8n_workflow cfg orc wf payload ka st).stopCalls = if ka then 0 else 1)
    ∧ (use_n8n_workflow cfg orc wf payload ka st).result =
        (match (start_n8n cfg orc st).1 with
         | .error e => .error e
         | .ok _ => webhookResult (orc.webhook wf payload))
    ∧ (use_n8n_workflow cfg orc wf payload ka st).result =
        (use_n8n_workflow cfg orc2 wf payload ka st).result := by
  have key : ∀ (o : Oracle),
      ((use_n8n_workflow cfg o wf payload ka st).stopCalls = if ka then 0 else 1)
      ∧ (use_n8n_workflow cfg o wf payload ka st).result =
          (match (start_n8n cfg o st).1 with
           | .error e => .error e
           | .ok _ => webhookResult (o.webhook wf payload)) := by
    intro o
    simp only [use_n8n_workflow]
    rcases hS : start_n8n cfg o st with ⟨res, st1, evs1⟩
    cases res with
    | error e =>
      cases ka <;> simp [webhookResult]
    | ok v =>
      cases hw : o.webhook wf payload with
      | http status body =>
        simp only [webhookResult]
        by_cases h4 : 400 ≤ status
        · cases ka <;> simp [h4]
        · cases body <;> cases ka <;> simp [h4]
      | exn m => cases ka <;> simp [webhookResult]
  refine ⟨(key orc).1, (key orc).2, ?_⟩
  rw [(key orc).2, (key orc2).2, start_n8n_result_congr cfg orc orc2 st hrail, hweb]

/-- Witness for C1 at a concrete input: a configured environment, a
webhook that succeeds, and an oracle whose every stop mutation fails. -/
theorem c1_invoke_cleanup_witness :
    ((use_n8n_workflow cfg0 orcStopFails "wf-1" (JVal.obj []) false serviceStateInit).stopCalls
        = if false then 0 else 1)
    ∧ (use_n8n_workflow cfg0 orcStopFails "wf-1" (JVal.obj []) false serviceStateInit).result =
        (match (start_n8n cfg0 orcStopFails serviceStateInit).1 with
         | .error e => .error e
         | .ok _ => webhookResult (orcStopFails.webhook "wf-1" (JVal.obj [])))
    ∧ (use_n8n_workflow cfg0 orcStopFails "wf-1" (JVal.obj []) false serviceStateInit).result =
        (use_n8n_workflow cfg0 orc0 "wf-1" (JVal.obj []) false serviceStateInit).result :=
  c1_invoke_cleanup cfg0 orcStopFails orc0 "wf-1" (JVal.obj []) false serviceStateInit
    (fun _ => rfl) rfl

/-! ## C2 -/

/-- C2 counterexample: against a management endpoint that answers 503 on
every attempt, `N8NClient._request` issues exactly one HTTP request — not
three — and raises `N8NError(503, body)` past the client boundary instead
of returning a terminal error envelope.  The source has no retry loop and
no backoff. -/
theorem c2_retry_counterexample :
    (N8NClient._request client0 "GET" "/rest/workflows" (fun _ => resp503)).2.length = 1
    ∧ ¬ ((N8NClient._request client0 "GET" "/rest/workflows" (fun _ => resp503)).2.length = 3)
    ∧ (N8NClient._request client0 "GET" "/rest/workflows" (fun _ => resp503)).1 =
        RequestOutcome.n8nError 503 (JVal.obj [("message", JVal.str "Service Unavailable")]) :=
  ⟨rfl, by decide, rfl⟩

/-- C2 amended: for every management-API request whose response has a
5xx status, the client issues exactly one request (no retry, no delays)
and raises `N8NError(status, body)` to its caller; the conversion to an
`ok: false` envelope happens only in the facade handlers, not in the
client. -/
theorem c2_single_attempt (c : N8NClient) (method path : String)
    (server : Nat → HttpResponse) (h5 : 500 ≤ (server 0).status) :
    (N8NClient._request c method path server).2.length = 1
    ∧ (N8NClient._request c method path server).1 =
        RequestOutcome.n8nError (server 0).status (errResponseBody (server 0)) := by
  have hlt : ¬ ((server 0).status < 300) := by omega
  have hcond : (200 ≤ (server 0).status && (server 0).status < 300) = false := by
    simp [hlt]
  simp only [N8NClient._request, hcond, Bool.false_eq_true, if_false]
  exact ⟨rfl, trivial⟩

/-- Witness for C2 (amended) at the concrete always-503 server. -/
theorem c2_single_attempt_witness :
    (N8NClient._request client0 "GET" "/rest/executions" (fun _ => resp503)).2.length = 1
    ∧ (N8NClient._request client0 "GET" "/rest/executions" (fun _ => resp503)).1 =
        RequestOutcome.n8nError ((fun _ : Nat => resp503) 0).status
          (errResponseBody ((fun _ : Nat => resp503) 0)) :=
  c2_single_attempt client0 "GET" "/rest/executions" (fun _ => resp503) (by decide)

/-! ## C3 -/

/-- Shape of a successful `start_n8n` from a stopped state in a
configured environment. -/
theorem start_n8n_not_running (cfg : Config) (orc : Oracle) (st : ServiceState) (r : JVal)
    (h : st.is_running = false)
    (ht : truthyOpt cfg.railway_token = true) (hs : truthyOpt cfg.service_id = true)
    (hok : orc.railway (.serviceStart (serviceIdStr cfg)) = .ok r) :
    start_n8n cfg orc st =
      (.ok (startedJson r),
       { is_running := true, last_started := some orc.now, last_stopped := st.last_stopped },
       Event.railwayPost (.serviceStart (serviceIdStr cfg))
         :: Event.sleep cfg.n8n_startup_wait :: healthLoop orc.health 0 5) := by
  simp [start_n8n, railway_graphql, h, ht, hs, hok]

/-- Shape of a successful `stop_n8n` from a running state in a
configured environment. -/
theorem stop_n8n_running_ok (cfg : Config) (orc : Oracle) (st : ServiceState) (r : JVal)
    (h : st.is_running = true)
    (ht : truthyOpt cfg.railway_token = true) (hs : truthyOpt cfg.service_id = true)
    (hok : orc.railway (.serviceStop (serviceIdStr cfg)) = .ok r) :
    stop_n8n cfg orc st =
      (.ok (stoppedJson r),
       { is_running := false, last_started := st.last_started, last_stopped := some orc.now },
       [Event.railwayPost (.serviceStop (serviceIdStr cfg))]) := by
  simp [stop_n8n, railway_graphql, h, ht, hs, hok]

/-- C3: `start_n8n` against a running cached state returns
`already_running` without any remote call, and `stop_n8n` against a
stopped cached state returns `already_stopped` without any remote call;
consequently two consecutive `start_n8n` calls whose first succeeds issue
exactly one remote `serviceStart` mutation, and two consecutive
`stop_n8n` calls whose first succeeds issue exactly one remote
`serviceStop` mutation. -/
theorem c3_idempotent_start_stop :
    (∀ (cfg : Config) (orc : Oracle) (st : ServiceState),
       start_n8n cfg orc { st with is_running := true } =
         (.ok alreadyRunningJson, { st with is_running := true }, []))
    ∧ (∀ (cfg : Config) (orc : Oracle) (st : ServiceState),
       stop_n8n cfg orc { st with is_running := false } =
         (.ok alreadyStoppedJson, { st with is_running := false }, []))
    ∧ (∀ (cfg : Config) (orc : Oracle) (st : ServiceState) (r : JVal),
       st.is_running = false → (start_n8n cfg orc st).1 = .ok r →
       countStartPosts ((start_n8n cfg orc st).2.2
         ++ (start_n8n cfg orc (start_n8n cfg orc st).2.1).2.2) = 1)
    ∧ (∀ (cfg : Config) (orc : Oracle) (st : ServiceState) (r : JVal),
       st.is_running = true → (stop_n8n cfg orc st).1 = .ok r →
       countStopPosts ((stop_n8n cfg orc st).2.2
         ++ (stop_n8n cfg orc (stop_n8n cfg orc st).2.1).2.2) = 1) := by
  refine ⟨?_, ?_, ?_, ?_⟩
  · intro cfg orc st; simp [start_n8n]
  · intro cfg orc st; simp [stop_n8n]
  · intro cfg orc st r h hok
    by_cases hT : truthyOpt cfg.railway_token = true
    · by_cases hS : truthyOpt cfg.service_id = true
      · cases hR : orc.railway (.serviceStart (serviceIdStr cfg)) with
        | error e =>
          exfalso
          simp [start_n8n, railway_graphql, h, hT, hS, hR] at hok
        | ok res =>
          rw [start_n8n_not_running cfg orc st res h hT hS hR]
          dsimp only
          rw [show (start_n8n cfg orc
              { is_running := true, last_started := some orc.now,
                last_stopped := st.last_stopped }).2.2 = [] by simp [start_n8n]]
          rw [List.append_nil, (counts_startPost_cons _ _).1, (counts_sleep_cons _ _).1,
            (healthLoop_counts orc.health 5 0).1]
      · exfalso
        rw [Bool.not_eq_true] at hS
        simp [start_n8n, railway_graphql, h, hT, hS] at hok
    · exfalso
      rw [Bool.not_eq_true] at hT
      simp [start_n8n, railway_graphql, h, hT] at hok
  · intro cfg orc st r h hok
    by_cases hT : truthyOpt cfg.railway_token = true
    · by_cases hS : truthyOpt cfg.service_id = true
      · cases hR : orc.railway (.serviceStop (serviceIdStr cfg)) with
        | error e =>
          exfalso
          simp [stop_n8n, railway_graphql, h, hT, hS, hR] at hok
        | ok res =>
          rw [stop_n8n_running_ok cfg orc st res h hT hS hR]
          dsimp only
          rw [show (stop_n8n cfg orc
              { is_running := false, last_started := st.last_started,
                last_stopped := some orc.now }).2.2 = [] by simp [stop_n8n]]
          rw [List.append_nil, (counts_stopPost_cons _ _).2.1, counts_nil.2.1]
      · exfalso
        rw [Bool.not_eq_true] at hS
        simp [stop_n8n, railway_graphql, h, hT, hS] at hok
    · exfalso
      rw [Bool.not_eq_true] at hT
      simp [stop_n8n, railway_graphql, h, hT] at hok

/-- Witness for C3 at concrete inputs: a fresh stopped state started
twice, and a running state stopped twice, each issuing one mutation. -/
theorem c3_idempotent_start_stop_witness :
    countStartPosts ((start_n8n cfg0 orc0 serviceStateInit).2.2
      ++ (start_n8n cfg0 orc0 (start_n8n cfg0 orc0 serviceStateInit).2.1).2.2) = 1
    ∧ countStopPosts ((stop_n8n cfg0 orc0 stRunning).2.2
      ++ (stop_n8n cfg0 orc0 (stop_n8n cfg0 orc0 stRunning).2.1).2.2) = 1 :=
  ⟨c3_idempotent_start_stop.2.2.1 cfg0 orc0 serviceStateInit (startedJson JVal.null) rfl rfl,
   c3_idempotent_start_stop.2.2.2 cfg0 orc0 stRunning (stoppedJson JVal.null) rfl rfl⟩

/-! ## C4 -/

theorem counts_webhook_map (items : List (String × JVal)) :
    countStartPosts (items.map fun it => Event.webhookPost it.1 it.2) = 0
    ∧ countStopPosts (items.map fun it => Event.webhookPost it.1 it.2) = 0 := by
  induction items with
  | nil => exact ⟨counts_nil.1, counts_nil.2.1⟩
  | cons a l ih =>
    simp only [List.map_cons]
    exact ⟨by rw [(counts_webhook_cons _ _ _).1, ih.1],
           by rw [(counts_webhook_cons _ _ _).2.1, ih.2]⟩

theorem getLast?_append_single (l : List Event) (e : Event) :
    (l ++ [e]).getLast? = some e := by
  rw [List.getLast?_append_cons l e []]
  rfl

/-- The pair returned by the batch `__exit__` projects onto `stop_n8n`. -/
theorem batchExit_events (cfg : Config) (orc : Oracle) (st : ServiceState) :
    (N8NBatchOperation.exit cfg orc st).2 = (stop_n8n cfg orc st).2.2 := rfl

/-- C4: for a batch of N invocations executed inside the batch scope,
each with `keep_alive=True`, when the batch-entry `start_n8n` succeeds:
the `serviceStart` mutation is issued at most once (exactly once from a
stopped state, zero times from an already-running one), the `serviceStop`
mutation is attempted exactly once, `stop_n8n` is called exactly once by
the `__exit__` of the scope, and the stop mutation is the final remote
call of the request — on every exit path, including when items inside
fail (item failures are caught and recorded, and never reach past the
scope). -/
theorem c4_batch_wrapping (cfg : Config) (orc : Oracle) (auth : Option String)
    (workflows : List (String × JVal)) (st : ServiceState) (r : JVal)
    (ht : truthyOpt cfg.railway_token = true) (hs : truthyOpt cfg.service_id = true)
    (hstart : (start_n8n cfg orc st).1 = .ok r) :
    countStartPosts (batch_workflows_execution cfg orc auth workflows st).events =
      (if st.is_running then 0 else 1)
    ∧ countStopPosts (batch_workflows_execution cfg orc auth workflows st).events = 1
    ∧ (batch_workflows_execution cfg orc auth workflows st).stopCalls = 1
    ∧ (batch_workflows_execution cfg orc auth workflows st).events.getLast? =
        some (Event.railwayPost (.serviceStop (serviceIdStr cfg))) := by
  have hmap := counts_webhook_map workflows
  cases hrun : st.is_running with
  | true =>
    have henter : start_n8n cfg orc st = (.ok alreadyRunningJson, st, []) := by
      simp [start_n8n, hrun]
    obtain ⟨r1, r2, r3⟩ := runBatchItems_spec cfg orc workflows st hrun
    have hexit : (N8NBatchOperation.exit cfg orc st).2
        = [Event.railwayPost (.serviceStop (serviceIdStr cfg))] := by
      rw [batchExit_events]
      exact stop_running_events cfg orc st ht hs hrun
    simp only [batch_workflows_execution, ht, hs, Bool.and_self, Bool.not_true,
      Bool.false_eq_true, if_false, N8NBatchOperation.enter, henter]
    try dsimp only
    rw [r1, r2, r3, hexit]
    refine ⟨?_, ?_, rfl, ?_⟩
    · rw [List.nil_append, countStartPosts_append, hmap.1, (counts_stopPost_cons _ _).1,
        counts_nil.1]
      simp
    · rw [List.nil_append, countStopPosts_append, hmap.2, (counts_stopPost_cons _ _).2.1,
        counts_nil.2.1]
    · rw [List.nil_append, getLast?_append_single]
  | false =>
    rcases hR : orc.railway (.serviceStart (serviceIdStr cfg)) with e | res
    · exfalso
      simp [start_n8n, railway_graphql, hrun, ht, hs, hR] at hstart
    · have henter := start_n8n_not_running cfg orc st res hrun ht hs hR
      have hrun1 : (ServiceState.mk true (some orc.now) st.last_stopped).is_running = true := rfl
      obtain ⟨r1, r2, r3⟩ := runBatchItems_spec cfg orc workflows
        (ServiceState.mk true (some orc.now) st.last_stopped) hrun1
      have hexit : (N8NBatchOperation.exit cfg orc
          (ServiceState.mk true (some orc.now) st.last_stopped)).2
          = [Event.railwayPost (.serviceStop (serviceIdStr cfg))] := by
        rw [batchExit_events]
        exact stop_running_events cfg orc _ ht hs hrun1
      simp only [batch_workflows_execution, ht, hs, Bool.and_self, Bool.not_true,
        Bool.false_eq_true, if_false, N8NBatchOperation.enter, henter]
      try dsimp only
      rw [r1, r2, r3, hexit]
      refine ⟨?_, ?_, rfl, ?_⟩
      · rw [countStartPosts_append, countStartPosts_append,
          (counts_startPost_cons _ _).1, (counts_sleep_cons _ _).1,
          (healthLoop_counts orc.health 5 0).1, hmap.1, (counts_stopPost_cons _ _).1,
          counts_nil.1]
      · rw [countStopPosts_append, countStopPosts_append,
          (counts_startPost_cons _ _).2.1, (counts_sleep_cons _ _).2.1,
          (healthLoop_counts orc.health 5 0).2.1, hmap.2, (counts_stopPost_cons _ _).2.1,
          counts_nil.2.1]
      · rw [getLast?_append_single]

/-- Witness for C4 at a concrete input: a two-item batch (the second
item's webhook raising) from a stopped state. -/
theorem c4_batch_wrapping_witness :
    countStartPosts (batch_workflows_execution cfg0 orc0 none
        [("wf-a", JVal.obj []), ("wf-b", JVal.null)] serviceStateInit).events =
      (if serviceStateInit.is_running then 0 else 1)
    ∧ countStopPosts (batch_workflows_execution cfg0 orc0 none
        [("wf-a", JVal.obj []), ("wf-b", JVal.null)] serviceStateInit).events = 1
    ∧ (batch_workflows_execution cfg0 orc0 none
        [("wf-a", JVal.obj []), ("wf-b", JVal.null)] serviceStateInit).stopCalls = 1
    ∧ (batch_workflows_execution cfg0 orc0 none
        [("wf-a", JVal.obj []), ("wf-b", JVal.null)] serviceStateInit).events.getLast? =
        some (Event.railwayPost (.serviceStop (serviceIdStr cfg0))) :=
  c4_batch_wrapping cfg0 orc0 none [("wf-a", JVal.obj []), ("wf-b", JVal.null)]
    serviceStateInit (startedJson JVal.null) rfl rfl rfl

/-! ## C5 -/

/-- C5: when the remote `serviceStop` mutation fails, `stop_n8n`
propagates the error to its caller and leaves the cached state
unchanged — `is_running` stays true and `last_stopped` is not updated. -/
theorem c5_stop_failure_state (cfg : Config) (orc : Oracle) (st : ServiceState) (e : String)
    (ht : truthyOpt cfg.railway_token = true) (hs : truthyOpt cfg.service_id = true)
    (hrun : st.is_running = true)
    (hfail : orc.railway (.serviceStop (serviceIdStr cfg)) = .error e) :
    stop_n8n cfg orc st =
      (.error e, st, [Event.railwayPost (.serviceStop (serviceIdStr cfg))])
    ∧ (stop_n8n cfg orc st).2.1.is_running = true
    ∧ (stop_n8n cfg orc st).2.1.last_stopped = st.last_stopped := by
  have h1 : stop_n8n cfg orc st =
      (.error e, st, [Event.railwayPost (.serviceStop (serviceIdStr cfg))]) := by
    simp [stop_n8n, railway_graphql, hrun, ht, hs, hfail]
  refine ⟨h1, ?_, ?_⟩
  · rw [h1]; exact hrun
  · rw [h1]

/-- Witness for C5 at a concrete input: a running state and an oracle
whose stop mutation always fails. -/
theorem c5_stop_failure_state_witness :
    stop_n8n cfg0 orcStopFails stRunning =
      (.error "Railway API error: stop rejected", stRunning,
       [Event.railwayPost (.serviceStop (serviceIdStr cfg0))])
    ∧ (stop_n8n cfg0 orcStopFails stRunning).2.1.is_running = true
    ∧ (stop_n8n cfg0 orcStopFails stRunning).2.1.last_stopped = stRunning.last_stopped :=
  c5_stop_failure_state cfg0 orcStopFails stRunning
    "Railway API error: stop rejected" rfl rfl rfl rfl

/-! ## C6 -/

/-- C6: when the `serviceStart` mutation succeeds from a stopped cached
state, `start_n8n` marks the state running, records the start timestamp,
sleeps the configured warm-up interval, then performs at most 5 health
polls, and returns the `started` result for every possible sequence of
poll outcomes (the health function is unconstrained); when the first poll
answers 200 the loop stops after exactly one health GET. -/
theorem c6_start_success (cfg : Config) (orc : Oracle) (st : ServiceState) (r : JVal)
    (ht : truthyOpt cfg.railway_token = true) (hs : truthyOpt cfg.service_id = true)
    (hnot : st.is_running = false)
    (hok : orc.railway (.serviceStart (serviceIdStr cfg)) = .ok r) :
    start_n8n cfg orc st =
      (.ok (startedJson r),
       { is_running := true, last_started := some orc.now, last_stopped := st.last_stopped },
       Event.railwayPost (.serviceStart (serviceIdStr cfg))
         :: Event.sleep cfg.n8n_startup_wait :: healthLoop orc.health 0 5)
    ∧ countHealthGets (healthLoop orc.health 0 5) ≤ 5
    ∧ (orc.health 0 = some 200 → healthLoop orc.health 0 5 = [Event.healthGet]) := by
  refine ⟨start_n8n_not_running cfg orc st r hnot ht hs hok,
    (healthLoop_counts orc.health 5 0).2.2, ?_⟩
  intro h200
  have h5 : healthLoop orc.health 0 (4 + 1) = [Event.healthGet] := by
    rw [healthLoop_succ, h200]
    simp
  simpa using h5

/-- Witness for C6 at a concrete input: the health endpoint answers 200
on the first poll, so exactly one health GET appears in the trace. -/
theorem c6_start_success_witness :
    (start_n8n cfg0 orc0 serviceStateInit =
      (.ok (startedJson JVal.null),
       { is_running := true, last_started := some orc0.now,
         last_stopped := serviceStateInit.last_stopped },
       Event.railwayPost (.serviceStart (serviceIdStr cfg0))
         :: Event.sleep cfg0.n8n_startup_wait :: healthLoop orc0.health 0 5)
    ∧ countHealthGets (healthLoop orc0.health 0 5) ≤ 5
    ∧ (orc0.health 0 = some 200 → healthLoop orc0.health 0 5 = [Event.healthGet])) :=
  c6_start_success cfg0 orc0 serviceStateInit JVal.null rfl rfl rfl rfl

/-! ## C7 -/

/-- C7 counterexample: with a remote credential list in which the Gmail
name has no match, the workflow-spec build does not succeed while
recording a missing-credentials entry — it aborts: the resolver raises
`RuntimeError("Credential ... not found in n8n")`, the build returns that
error, no node is emitted, and no missing-credentials accumulator exists
anywhere in the client. -/
theorem c7_missing_cred_counterexample :
    build_wf_tg_to_gmail credsOnlyTelegram "Telegram account 2" "Gmail account"
        [] "user@example.com"
      = .error "Credential Gmail account not found in n8n" := rfl

/-- C7 amended: when a required credential name has no match among the
remotely listed credentials, `get_credential_by_name` returns `None`,
`CredentialResolver.resolve` raises `RuntimeError`, and the whole
workflow-spec build aborts with that error instead of continuing with a
recorded missing entry. -/
theorem c7_missing_cred_aborts (creds : List JVal) (tname gname : String)
    (wl : List String) (mail_to : String) (tc : JVal)
    (hmiss : get_credential_by_name creds gname = none)
    (hne : (gname == "") = false)
    (htg : CredentialResolver.resolve creds "telegramApi" tname = .ok tc) :
    CredentialResolver.resolve creds "gmailOAuth2" gname =
      .error ("Credential " ++ gname ++ " not found in n8n")
    ∧ build_wf_tg_to_gmail creds tname gname wl mail_to =
        .error ("Credential " ++ gname ++ " not found in n8n") := by
  have h1 : CredentialResolver.resolve creds "gmailOAuth2" gname =
      .error ("Credential " ++ gname ++ " not found in n8n") := by
    simp [CredentialResolver.resolve, hne, hmiss]
  refine ⟨h1, ?_⟩
  simp only [build_wf_tg_to_gmail, htg, h1]

/-- Witness for C7 (amended) at the concrete credential list that lacks
the Gmail credential. -/
theorem c7_missing_cred_aborts_witness :
    CredentialResolver.resolve credsOnlyTelegram "gmailOAuth2" "Gmail account" =
      .error ("Credential " ++ "Gmail account" ++ " not found in n8n")
    ∧ build_wf_tg_to_gmail credsOnlyTelegram "Telegram account 2" "Gmail account"
        ["123"] "user@example.com" =
        .error ("Credential " ++ "Gmail account" ++ " not found in n8n") :=
  c7_missing_cred_aborts credsOnlyTelegram "Telegram account 2" "Gmail account"
    ["123"] "user@example.com"
    (JVal.obj [("telegramApi",
      JVal.obj [("id", JVal.str "cred-1"), ("name", JVal.str "Telegram account 2")])])
    rfl rfl rfl

/-! ## C8 -/

/-- C8 (code bug): with only basic-auth configured the facade readiness
check passes, yet building the client the way `_n8n_client` does raises
`TypeError` — `N8NClient.__init__` has no basic-auth parameters — and
`_headers` only ever emits the API-key header plus a duplicate bearer
header: its Authorization value is `Bearer <api_key>` for every client,
never a Basic scheme.  With nothing configured the facade does fail fast
with a not-configured result before any network call. -/
theorem c8_auth_config_bug :
    _assert_n8n_ready "https://n8n.example" "" "admin" "pw" = true
    ∧ n8n_client_init "https://n8n.example" "" "admin" "pw" = ClientInit.typeError
    ∧ N8NClient._headers client0 =
        [("X-N8N-API-KEY", "key0"),
         ("Authorization", "Bearer key0"),
         ("Content-Type", "application/json"),
         ("Accept", "application/json")]
    ∧ (∀ c : N8NClient, (N8NClient._headers c).lookup "Authorization"
        = some ("Bearer " ++ c.api_key))
    ∧ n8n_client_init "" "" "" "" = ClientInit.notConfigured
    ∧ n8n_client_init "https://n8n.example" "" "" "" = ClientInit.notConfigured :=
  ⟨rfl, rfl, rfl, fun _ => rfl, rfl, rfl⟩

/-! ## C9 -/

/-- C9 counterexample: the `/report` success path answers HTTP 200 with
body `{"status": "remembered"}`, which carries no `ok` field at all — so
not every facade response body is a JSON envelope with an explicit
boolean `ok`. -/
theorem c9_envelope_counterexample :
    ((report (some (JVal.obj [("note", JVal.str "hi")])) [] "t0").1.2).lookup "ok" = none
    ∧ (report (some (JVal.obj [("note", JVal.str "hi")])) [] "t0").1.1 = 200
    ∧ (report (some (JVal.obj [("note", JVal.str "hi")])) [] "t0").1.2 =
        JVal.obj [("status", JVal.str "remembered")] :=
  ⟨rfl, rfl, rfl⟩

/-- C9 amended: the facade error paths do answer HTTP 200 with an
`ok: false` envelope, but the success paths of `/report` and of the plain
orchestration branch omit the `ok` field entirely, so the envelope is not
present on every endpoint and outcome. -/
theorem c9_envelope_amended (cfg : Config) (orc : Oracle) (memories : List JVal)
    (st : ServiceState) (now_iso : String) :
    (report none memories now_iso).1.1 = 200
    ∧ ((report none memories now_iso).1.2).lookup "ok" = some (JVal.bool false)
    ∧ (orchestrate cfg orc memories none st).1.1 = 200
    ∧ ((orchestrate cfg orc memories none st).1.2).lookup "ok" = some (JVal.bool false)
    ∧ (controlled_webhook cfg orc none "wf" none st).1.1 = 200
    ∧ ((controlled_webhook cfg orc none "wf" none st).1.2).lookup "ok" =
        some (JVal.bool false)
    ∧ ((orchestrate cfg orc memories (some (JVal.obj [])) st).1.2).lookup "ok" = none :=
  ⟨rfl, rfl, rfl, rfl, rfl, rfl, rfl⟩

/-! ## C10 -/

/-- C10: the authorization check `_auth_or_anon` returns `True` for every
Authorization header value without inspecting it (or `CAIA_AGENT_KEY`),
and two requests to the lifecycle endpoints differing only in their
Authorization header receive identical responses, state transitions and
remote-call traces — no request is ever rejected for missing or invalid
credentials. -/
theorem c10_auth_bypass :
    (∀ a : Option String, _auth_or_anon a = true)
    ∧ (∀ (cfg : Config) (orc : Oracle) (a1 a2 : Option String) (wid : String)
        (body : Option JVal) (st : ServiceState),
        controlled_webhook cfg orc a1 wid body st =
          controlled_webhook cfg orc a2 wid body st)
    ∧ (∀ (cfg : Config) (orc : Oracle) (a1 a2 : Option String)
        (wfs : List (String × JVal)) (st : ServiceState),
        batch_workflows_execution cfg orc a1 wfs st =
          batch_workflows_execution cfg orc a2 wfs st) :=
  ⟨fun _ => rfl, fun _ _ _ _ _ _ _ => rfl, fun _ _ _ _ _ _ => rfl⟩

end Caia
